import Mathlib

/-!
Shallow embedding of the Bayesian-MRI repository (two notebooks:
a training script and a reconstruction script `demo_recon.ipynb`) and
verification of the frozen claims about them.

Arrays are modelled as total functions or lists; external library calls
(spreco, bart) are modelled as opaque deterministic function parameters or
as call descriptors, since the repository only wires arguments into them.
-/

namespace BayesianMRI

/- ## Common list helpers (numpy slice semantics) -/

/-- Python/numpy slice `xs[lo:hi]` for `0 ≤ lo ≤ hi`. -/
def pySlice (lo hi : ℕ) (xs : List α) : List α :=
  (xs.drop lo).take (hi - lo)

/-- `np.mean` over a list of rationals (one abstract pixel per sample). -/
def npMean (xs : List ℚ) : ℚ :=
  xs.sum / (xs.length : ℚ)

/- ## C1: expectation estimates in the results cell of demo_recon.ipynb

The results cell computes, per sampler iteration (one row of
`normalized_rets` of length `nr_samples = 10`):

  normalized_expectation_1  = normalized_rets[:total_steps:step_size,0,...]
  normalized_expectation_2  = np.mean(normalized_rets[...,0:2,...], axis=1)
  normalized_expectation_4  = np.mean(normalized_rets[...,1:4,...], axis=1)
  normalized_expectation_8  = np.mean(normalized_rets[...,1:8,...], axis=1)
  normalized_expectation_10 = np.mean(normalized_rets[...], axis=1)

and the plotting cell labels the five PSNR/SSIM columns with the counts
`[1, 2, 4, 8, 10]`.  Each expectation is embedded below acting on one
iteration row, with each posterior sample abstracted to one rational. -/

def normalized_expectation_1 (row : List ℚ) : ℚ := row.getD 0 0

def normalized_expectation_2 (row : List ℚ) : ℚ := npMean (pySlice 0 2 row)

def normalized_expectation_4 (row : List ℚ) : ℚ := npMean (pySlice 1 4 row)

def normalized_expectation_8 (row : List ℚ) : ℚ := npMean (pySlice 1 8 row)

def normalized_expectation_10 (row : List ℚ) : ℚ := npMean row

/-- The sub-list of posterior samples actually averaged under plot label
`c samples`, read off the five assignments above. -/
def samplesAveraged (c : ℕ) (row : List ℚ) : List ℚ :=
  match c with
  | 1 => pySlice 0 1 row
  | 2 => pySlice 0 2 row
  | 4 => pySlice 1 4 row
  | 8 => pySlice 1 8 row
  | 10 => row
  | _ => []

/-- The sample counts used as plot labels in the PSNR/SSIM figure. -/
def plotLabels : List ℕ := [1, 2, 4, 8, 10]

/-- A concrete 10-sample iteration row (`nr_samples = 10` in the example
configuration), with pairwise distinct sample values. -/
def demoRow : List ℚ := [0, 1, 2, 3, 4, 5, 6, 7, 8, 9]

/-- C1: the claim says the estimate plotted under label `c samples` is the
mean of exactly `c` normalized posterior samples, for every
c ∈ {1, 2, 4, 8, 10}.  On the code this fails: the slice `[1:4]` behind the
label `4 samples` holds 3 samples and the slice `[1:8]` behind `8 samples`
holds 7, so the per-label sample counts are `[1, 2, 3, 7, 10]`, not
`[1, 2, 4, 8, 10]`; on the concrete row `0..9` the value plotted as
`4 samples` is `(1+2+3)/3 = 2`, the mean of three samples. -/
theorem C1_sample_count_bug :
    (plotLabels.map fun c => (samplesAveraged c demoRow).length) = [1, 2, 3, 7, 10] ∧
    (plotLabels.map fun c => (samplesAveraged c demoRow).length) ≠ plotLabels ∧
    normalized_expectation_4 demoRow = 2 ∧
    normalized_expectation_4 demoRow = npMean [1, 2, 3] ∧
    (samplesAveraged 8 demoRow).length = 7 := by
  refine ⟨by decide, by decide, ?_, ?_, by decide⟩ <;>
    · simp only [normalized_expectation_4, npMean, pySlice, demoRow]
      norm_num

/- ## C2: tool provenance of the mask and coil maps in prepare_simu

`prepare_simu` (demo_recon.ipynb) performs, in order:

  coilsen = np.squeeze(utils.bart(1, 'ecalib -m1 -r20 -c0.001', kspace[np.newaxis, ...]))
  std_coils = ops.mifft2(kspace, img_shape)
  ... rss ...
  if mask is None:
      if not config['poisson']:
          mask = sampling_pattern.gen_mask_2D(nx, ny, center_r=config['cal'], undersampling=config['sampling_rate'])
      else:
          mask = utils.bart(1, 'poisson -Y %d -Z %d -y %f -z %f -s 1234 -v -C %d' % ...)
  und_ksp = kspace*abs(mask[..., np.newaxis])
  coilsen = np.squeeze(utils.bart(1, 'ecalib -m1 -r20 -c0.001', kspace[np.newaxis, ...]))
  x_ = ops.AT_cart(und_ksp, coilsen, mask, img_shape)

Each external invocation is embedded as a call descriptor recording which
toolbox serves it. -/

/-- An external invocation made by `prepare_simu`: either a `bart`
native-toolbox command or a spreco library function. -/
inductive ExtCall where
  | bart (cmd : String)
  | spreco (fn : String)
  deriving DecidableEq, Repr

/-- Whether a call goes to the native toolbox `bart`. -/
def ExtCall.isBart : ExtCall → Bool
  | .bart _ => true
  | .spreco _ => false

/-- The invocation producing the mask inside `prepare_simu` when it is
called with `mask=None`, as a function of the `poisson` flag. -/
def maskCall (poisson : Bool) : ExtCall :=
  if poisson then ExtCall.bart "poisson" else ExtCall.spreco "sampling_pattern.gen_mask_2D"

/-- The ordered trace of external invocations in one `prepare_simu` call
with `mask=None`. -/
def prepare_simu_trace (poisson : Bool) : List ExtCall :=
  [ExtCall.bart "ecalib -m1 -r20 -c0.001",
   ExtCall.spreco "ops.mifft2",
   maskCall poisson,
   ExtCall.bart "ecalib -m1 -r20 -c0.001",
   ExtCall.spreco "ops.AT_cart"]

/-- C2 counterexample: with the `poisson` configuration flag false,
`prepare_simu` obtains the mask from the spreco library function
`sampling_pattern.gen_mask_2D`, not from a native-toolbox (`bart`)
invocation, refuting the claim that the mask is produced by a
native-toolbox invocation regardless of the flag. -/
theorem C2_mask_not_always_bart :
    maskCall false = ExtCall.spreco "sampling_pattern.gen_mask_2D" ∧
    (maskCall false).isBart = false := by
  decide

/-- C2 amended: in every `prepare_simu` call the coil sensitivity maps are
produced by the native toolbox (`ecalib`, both times), while the mask is
produced by a native-toolbox invocation exactly when the `poisson` flag is
true; otherwise it comes from the library function
`sampling_pattern.gen_mask_2D`. -/
theorem C2_tool_provenance (poisson : Bool) :
    (prepare_simu_trace poisson).getD 0 (ExtCall.spreco "") =
      ExtCall.bart "ecalib -m1 -r20 -c0.001" ∧
    (prepare_simu_trace poisson).getD 3 (ExtCall.spreco "") =
      ExtCall.bart "ecalib -m1 -r20 -c0.001" ∧
    ((maskCall poisson).isBart = true ↔ poisson = true) ∧
    (poisson = false → maskCall poisson = ExtCall.spreco "sampling_pattern.gen_mask_2D") := by
  cases poisson <;> decide

/- ## C3: values the training script passes to the external library

The training notebook computes and passes:

  train_files = utils.find_files(config['train_data_path'], config['pattern'])
  test_files  = utils.find_files(config['test_data_path'], config['pattern'])
  pipe.create_pipe(parts_funcs, files=..., batch_size=config['batch_size']*config['nr_gpu'],
                   shape_info=[config['input_shape'], [1]], names=['inputs', 'h'])
  randint draws from [0, config['nr_levels'])
  trainer(train_pipe, test_pipe, config)

so the batch size handed to `pipe.create_pipe` is a value computed by the
repository from `nr_gpu`. -/

/-- The training configuration keys the training notebook reads. -/
structure TrainConfig where
  batch_size : ℕ
  nr_gpu : ℕ
  nr_levels : ℕ
  input_shape : List ℕ
  train_data_path : String
  test_data_path : String
  pattern : String
  deriving DecidableEq, Repr

/-- The values computed by the training notebook itself and handed to the
external library (spreco) entry points, other than the config dict that is
passed through whole to `trainer`. -/
structure LibArgs where
  train_query : String × String
  test_query : String × String
  pipe_batch : ℕ
  shape_info : List (List ℕ)
  names : List String
  randint_high : ℕ
  deriving DecidableEq, Repr

/-- The argument wiring of the training notebook. -/
def libArgs (c : TrainConfig) : LibArgs :=
  { train_query := (c.train_data_path, c.pattern)
  , test_query := (c.test_data_path, c.pattern)
  , pipe_batch := c.batch_size * c.nr_gpu
  , shape_info := [c.input_shape, [1]]
  , names := ["inputs", "h"]
  , randint_high := c.nr_levels }

/-- A concrete training configuration (the example values of the notebook). -/
def cfgGpu1 : TrainConfig :=
  { batch_size := 2, nr_gpu := 1, nr_levels := 10, input_shape := [256, 256, 2]
  , train_data_path := "train", test_data_path := "test", pattern := "*.npz" }

/-- The same configuration with only the GPU count changed. -/
def cfgGpu2 : TrainConfig := { cfgGpu1 with nr_gpu := 2 }

/-- C3 counterexample: two runs whose configurations differ only in
`nr_gpu` (1 versus 2) pass different batch sizes (2 versus 4) to
`pipe.create_pipe`, so a repository-computed value other than the GPU
count itself differs between the runs, refuting the claim. -/
theorem C3_nr_gpu_affects_batch :
    cfgGpu2 = { cfgGpu1 with nr_gpu := 2 } ∧
    (libArgs cfgGpu1).pipe_batch = 2 ∧
    (libArgs cfgGpu2).pipe_batch = 4 ∧
    (libArgs cfgGpu1).pipe_batch ≠ (libArgs cfgGpu2).pipe_batch := by
  decide

/-- C3 amended: between two training runs whose configurations differ only
in `nr_gpu`, every repository-computed value passed to the library is
identical except the batch size handed to `pipe.create_pipe`, which is
`batch_size * nr_gpu` and therefore scales with the GPU count. -/
theorem C3_gpu_isolation (c1 c2 : TrainConfig)
    (hb : c1.batch_size = c2.batch_size) (hl : c1.nr_levels = c2.nr_levels)
    (hs : c1.input_shape = c2.input_shape)
    (htr : c1.train_data_path = c2.train_data_path)
    (hte : c1.test_data_path = c2.test_data_path)
    (hp : c1.pattern = c2.pattern) :
    (libArgs c1).train_query = (libArgs c2).train_query ∧
    (libArgs c1).test_query = (libArgs c2).test_query ∧
    (libArgs c1).shape_info = (libArgs c2).shape_info ∧
    (libArgs c1).names = (libArgs c2).names ∧
    (libArgs c1).randint_high = (libArgs c2).randint_high ∧
    (libArgs c1).pipe_batch = c1.batch_size * c1.nr_gpu ∧
    (libArgs c2).pipe_batch = c2.batch_size * c2.nr_gpu := by
  simp [libArgs, hb, hl, hs, htr, hte, hp]

/-- C3 witness: the amended isolation theorem applied to the two concrete
configurations differing only in the GPU count. -/
theorem C3_gpu_isolation_witness :
    (libArgs cfgGpu1).train_query = (libArgs cfgGpu2).train_query ∧
    (libArgs cfgGpu1).test_query = (libArgs cfgGpu2).test_query ∧
    (libArgs cfgGpu1).shape_info = (libArgs cfgGpu2).shape_info ∧
    (libArgs cfgGpu1).names = (libArgs cfgGpu2).names ∧
    (libArgs cfgGpu1).randint_high = (libArgs cfgGpu2).randint_high ∧
    (libArgs cfgGpu1).pipe_batch = cfgGpu1.batch_size * cfgGpu1.nr_gpu ∧
    (libArgs cfgGpu2).pipe_batch = cfgGpu2.batch_size * cfgGpu2.nr_gpu :=
  C3_gpu_isolation cfgGpu1 cfgGpu2 rfl rfl rfl rfl rfl rfl

/- ## C4: undersampled k-space in prepare_simu

The line embedded here is

  und_ksp = kspace*abs(mask[..., np.newaxis])

with `kspace : (nx, ny, coils)` complex and `mask : (nx, ny)` real:
broadcasting multiplies every coil entry at `(i, j)` by `|mask i j|`. -/

/-- The undersampled k-space computed by `prepare_simu`:
`und_ksp = kspace * abs(mask[..., np.newaxis])`, index-wise with the mask
broadcast over the coil dimension. -/
def und_ksp (kspace : ℕ → ℕ → ℕ → ℂ) (mask : ℕ → ℕ → ℝ) (i j c : ℕ) : ℂ :=
  kspace i j c * ((|mask i j| : ℝ) : ℂ)

/-- C4: for a 0/1-valued mask, the undersampled k-space equals the full
k-space at every frequency location the mask marks (for every coil) and is
zero at every unmarked location. -/
theorem C4_und_ksp_selects (kspace : ℕ → ℕ → ℕ → ℂ) (mask : ℕ → ℕ → ℝ)
    (hm : ∀ i j, mask i j = 0 ∨ mask i j = 1) (i j c : ℕ) :
    (mask i j = 1 → und_ksp kspace mask i j c = kspace i j c) ∧
    (mask i j ≠ 1 → und_ksp kspace mask i j c = 0) := by
  constructor
  · intro h1
    simp [und_ksp, h1]
  · intro h1
    rcases hm i j with h0 | h0
    · simp [und_ksp, h0]
    · exact absurd h0 h1

/-- C4 witness: the selection theorem applied to the constant-one k-space
and the all-ones mask at index (0, 0, 0). -/
theorem C4_und_ksp_selects_witness :
    und_ksp (fun _ _ _ => (1 : ℂ)) (fun _ _ => (1 : ℝ)) 0 0 0 = 1 :=
  (C4_und_ksp_selects (fun _ _ _ => (1 : ℂ)) (fun _ _ => (1 : ℝ))
    (fun _ _ => Or.inr rfl) 0 0 0).1 rfl

/- ## C5: the loaded configuration mappings are never mutated

Every use of `config` (and `model_config`) after `utils.load_config` in
either notebook is listed below in source order.  Each use is a subscript
read `cfg[key]`, a key-membership test `key in cfg.keys()`, or passing the
whole mapping to a library call; no statement assigns, adds or deletes a
key. -/

/-- One use of a loaded configuration mapping by the repository code.
`cfg` names which mapping is used (config or model_config). -/
inductive ConfigAccess where
  | readKey (cfg key : String)
  | memberTest (cfg key : String)
  | passWhole (cfg : String)
  | setKey (cfg key : String)
  | delKey (cfg key : String)
  deriving DecidableEq, Repr

/-- Whether an access leaves the mapping unchanged (a read in the broad
sense: subscript read, membership test, or passing the mapping through). -/
def ConfigAccess.isRead : ConfigAccess → Bool
  | .readKey _ _ => true
  | .memberTest _ _ => true
  | .passWhole _ => true
  | .setKey _ _ => false
  | .delKey _ _ => false

/-- All uses of `config` after loading in the training notebook, in source
order. -/
def trainConfigAccesses : List ConfigAccess :=
  [ConfigAccess.readKey "config" "train_data_path",
   ConfigAccess.readKey "config" "pattern",
   ConfigAccess.readKey "config" "test_data_path",
   ConfigAccess.readKey "config" "pattern",
   ConfigAccess.readKey "config" "nr_levels",
   ConfigAccess.readKey "config" "batch_size",
   ConfigAccess.readKey "config" "nr_gpu",
   ConfigAccess.readKey "config" "input_shape",
   ConfigAccess.readKey "config" "batch_size",
   ConfigAccess.readKey "config" "nr_gpu",
   ConfigAccess.readKey "config" "input_shape",
   ConfigAccess.passWhole "config"]

/-- All uses of `config` and `model_config` after loading in
demo_recon.ipynb, in source order (both branches of the mask conditional
and of the `.keys()` fallbacks included). -/
def reconConfigAccesses : List ConfigAccess :=
  [ConfigAccess.readKey "config" "model_folder",
   ConfigAccess.readKey "config" "model_folder",
   ConfigAccess.readKey "config" "model_name",
   ConfigAccess.readKey "model_config" "seed",
   ConfigAccess.readKey "model_config" "seed",
   ConfigAccess.readKey "config" "ksp_path",
   ConfigAccess.readKey "config" "poisson",
   ConfigAccess.readKey "config" "cal",
   ConfigAccess.readKey "config" "sampling_rate",
   ConfigAccess.readKey "config" "fx",
   ConfigAccess.readKey "config" "fy",
   ConfigAccess.readKey "config" "cal",
   ConfigAccess.readKey "model_config" "input_shape",
   ConfigAccess.passWhole "model_config",
   ConfigAccess.readKey "config" "model_folder",
   ConfigAccess.readKey "config" "model_name",
   ConfigAccess.readKey "config" "c_steps",
   ConfigAccess.readKey "config" "target_snr",
   ConfigAccess.readKey "config" "nr_samples",
   ConfigAccess.readKey "config" "burn_in",
   ConfigAccess.readKey "config" "burn_t",
   ConfigAccess.memberTest "config" "ode",
   ConfigAccess.readKey "config" "ode",
   ConfigAccess.memberTest "config" "ext_iter",
   ConfigAccess.readKey "config" "ext_iter",
   ConfigAccess.memberTest "config" "disable_z",
   ConfigAccess.readKey "config" "disable_z",
   ConfigAccess.memberTest "config" "use_pixelcnn",
   ConfigAccess.readKey "config" "use_pixelcnn",
   ConfigAccess.readKey "config" "s_stepsize",
   ConfigAccess.readKey "config" "st",
   ConfigAccess.readKey "config" "burn_in",
   ConfigAccess.readKey "config" "burn_t",
   ConfigAccess.readKey "config" "c_steps"]

/-- C5: every use of a loaded configuration mapping in either notebook is
a read (subscript read, membership test, or whole-mapping pass-through);
no key is ever assigned, added or deleted by repository code. -/
theorem C5_config_immutable :
    ∀ a ∈ trainConfigAccesses ++ reconConfigAccesses, a.isRead = true := by
  decide

/-- C5 witness: the immutability theorem applied to the read of the
poisson flag inside prepare_simu. -/
theorem C5_config_immutable_witness :
    (ConfigAccess.readKey "config" "poisson").isRead = true :=
  C5_config_immutable (ConfigAccess.readKey "config" "poisson") (by decide)

/- ## C6: exceptions from external calls propagate uncaught

Neither notebook contains a try/except block (nor a retry loop nor input
validation): each one is a linear sequence of statements.  Each statement
is recorded with the number of enclosing exception handlers in repository
code, which is 0 throughout; execution is embedded in the `Except` monad,
where a statement whose external call raises stops the script at that
point unless a handler encloses it. -/

/-- One top-level statement of a notebook, with the number of try/except
handlers enclosing it in repository code. -/
structure ScriptStmt where
  name : String
  handlers : ℕ
  deriving DecidableEq, Repr

/-- The statements of the training notebook, in execution order. -/
def trainStmts : List ScriptStmt :=
  [⟨"config = utils.load_config(config_path)", 0⟩,
   ⟨"train_files = utils.find_files(train_data_path, pattern)", 0⟩,
   ⟨"test_files = utils.find_files(test_data_path, pattern)", 0⟩,
   ⟨"train_pipe = pipe.create_pipe(parts_funcs, train_files, ...)", 0⟩,
   ⟨"test_pipe = pipe.create_pipe(parts_funcs, test_files, ...)", 0⟩,
   ⟨"go = trainer(train_pipe, test_pipe, config)", 0⟩,
   ⟨"utils.log_to(log_path/training files, train_files)", 0⟩,
   ⟨"utils.log_to(log_path/config.yaml, starting marker)", 0⟩,
   ⟨"go.train()", 0⟩,
   ⟨"utils.log_to(log_path/config.yaml, ending marker)", 0⟩,
   ⟨"utils.color_print(TRAINING FINISHED)", 0⟩]

/-- The statements of demo_recon.ipynb, in execution order. -/
def reconStmts : List ScriptStmt :=
  [⟨"config = utils.load_config(config_path)", 0⟩,
   ⟨"model_config = utils.load_config(model_folder/config.yaml)", 0⟩,
   ⟨"np.random.seed(model_config[seed])", 0⟩,
   ⟨"np.random.seed(model_config[seed])", 0⟩,
   ⟨"prepare_simu(config)", 0⟩,
   ⟨"zero_filled = utils.float2cplx(utils.normalize_with_max(zero_filled))", 0⟩,
   ⟨"l1_recon = utils.bart(1, pics -l1 -r 0.01, und_ksp, coilsen)", 0⟩,
   ⟨"AHA = partial(ops.AHA, grad_params)", 0⟩,
   ⟨"build network, tf.Session, saver.restore", 0⟩,
   ⟨"ins_sampler = posterior_sampler(ins_sde, ...)", 0⟩,
   ⟨"images = ins_sampler.conditional_ancestral_sampler(...)", 0⟩,
   ⟨"normalize results", 0⟩,
   ⟨"psnr/ssim loop", 0⟩,
   ⟨"plots", 0⟩]

/-- Sequential execution of statements starting at index `i`: `outcome k`
is the result of the k-th statement (its external calls included); an
error stops the run there unless a handler encloses the statement. -/
def runFrom {E : Type} (outcome : ℕ → Except E Unit) :
    List ScriptStmt → ℕ → Except E Unit
  | [], _ => Except.ok ()
  | s :: rest, i =>
    match outcome i with
    | Except.ok () => runFrom outcome rest (i + 1)
    | Except.error e =>
        if s.handlers = 0 then Except.error e else runFrom outcome rest (i + 1)

/-- Execution of a whole script. -/
def runScript {E : Type} (stmts : List ScriptStmt) (outcome : ℕ → Except E Unit) :
    Except E Unit :=
  runFrom outcome stmts 0

/-- In an all-unguarded statement list, the first raised error is the
result of the run. -/
theorem runFrom_first_error {E : Type} (stmts : List ScriptStmt)
    (outcome : ℕ → Except E Unit) (i k : ℕ) (e : E)
    (hh : ∀ s ∈ stmts, s.handlers = 0) (hk : k < stmts.length)
    (he : outcome (i + k) = Except.error e)
    (hok : ∀ j, j < k → outcome (i + j) = Except.ok ()) :
    runFrom outcome stmts i = Except.error e := by
  induction stmts generalizing i k with
  | nil => simp at hk
  | cons s rest ih =>
    cases k with
    | zero =>
      have h0 : outcome i = Except.error e := by simpa using he
      have hs : s.handlers = 0 := hh s (List.mem_cons_self s rest)
      simp [runFrom, h0, hs]
    | succ k =>
      have h0 : outcome i = Except.ok () := by simpa using hok 0 (Nat.succ_pos k)
      have step : runFrom outcome (s :: rest) i = runFrom outcome rest (i + 1) := by
        simp [runFrom, h0]
      rw [step]
      refine ih (i + 1) k (fun t ht => hh t (List.mem_cons_of_mem s ht)) ?_ ?_ ?_
      · simpa [Nat.succ_lt_succ_iff] using hk
      · have : i + 1 + k = i + (k + 1) := by omega
        rw [this]; exact he
      · intro j hj
        have : i + 1 + j = i + (j + 1) := by omega
        rw [this]
        exact hok (j + 1) (Nat.succ_lt_succ hj)

/-- C6: no statement of either notebook is enclosed in a try/except
handler, and consequently for any outcomes of the external calls, the
first exception raised in a run of either script becomes the result of
the whole run — it propagates uncaught and the statements after the
failure point are abandoned. -/
theorem C6_errors_uncaught :
    (∀ s ∈ trainStmts ++ reconStmts, s.handlers = 0) ∧
    (∀ (E : Type) (outcome : ℕ → Except E Unit) (k : ℕ) (e : E),
      k < trainStmts.length → outcome k = Except.error e →
      (∀ j, j < k → outcome j = Except.ok ()) →
      runScript trainStmts outcome = Except.error e) ∧
    (∀ (E : Type) (outcome : ℕ → Except E Unit) (k : ℕ) (e : E),
      k < reconStmts.length → outcome k = Except.error e →
      (∀ j, j < k → outcome j = Except.ok ()) →
      runScript reconStmts outcome = Except.error e) := by
  refine ⟨by decide, ?_, ?_⟩
  · intro E outcome k e hk he hok
    exact runFrom_first_error trainStmts outcome 0 k e (by decide) hk
      (by simpa using he) (fun j hj => by simpa using hok j hj)
  · intro E outcome k e hk he hok
    exact runFrom_first_error reconStmts outcome 0 k e (by decide) hk
      (by simpa using he) (fun j hj => by simpa using hok j hj)

/-- A concrete outcome assignment for the witness: the statement at index
4 (prepare_simu, whose k-space file may be missing) raises, everything
before succeeds. -/
def outcomeEx : ℕ → Except String Unit :=
  fun n => if n = 4 then Except.error "FileNotFoundError" else Except.ok ()

/-- C6 witness: the propagation theorem applied to demo_recon.ipynb with
the external call of statement 4 raising FileNotFoundError. -/
theorem C6_errors_uncaught_witness :
    runScript reconStmts outcomeEx = Except.error "FileNotFoundError" :=
  C6_errors_uncaught.2.2 String outcomeEx 4 "FileNotFoundError"
    (by decide) rfl
    (fun j hj => by
      have h4 : j ≠ 4 := by omega
      simp [outcomeEx, h4])

/- ## C7: the training data pipeline transforms

The training notebook defines

  def npz_loader(x): return utils.npz_loader(x, 'rss')
  def squeeze(x): return np.squeeze(x)
  def normalize(x): return utils.normalize_with_max(x)
  def slice_image(x): return utils.slice_image(x, [256, 256, 2])
  def randint(x, dtype='int32'): return np.random.randint(0, config['nr_levels'], (1), dtype=dtype)
  parts_funcs = [[npz_loader, squeeze, normalize, slice_image], [randint]]

Each transform is embedded as a descriptor recording the library function
and the constant arguments the notebook binds into it; the random draw is
additionally embedded as a value-level function. -/

/-- A transform in the data pipeline: the library function together with
the constant arguments the notebook binds into it. -/
inductive Transform where
  | npzLoader (key : String)
  | squeeze
  | normalizeWithMax
  | sliceImage (shape : List ℕ)
  | randint
  deriving DecidableEq, Repr

/-- The pipeline parts handed to `pipe.create_pipe`, as written in the
notebook: an image branch of four transforms and a noise-index branch. -/
def parts_funcs : List (List Transform) :=
  [[Transform.npzLoader "rss", Transform.squeeze, Transform.normalizeWithMax,
    Transform.sliceImage [256, 256, 2]],
   [Transform.randint]]

/-- The transform order the specification describes: npz loading with key
rss, dimension squeeze, normalization by the maximum, slicing to
[256, 256, 2], paired with one random noise-level index. -/
def specPipelineTransforms : List (List Transform) :=
  [[Transform.npzLoader "rss", Transform.squeeze, Transform.normalizeWithMax,
    Transform.sliceImage [256, 256, 2]],
   [Transform.randint]]

/-- Embedding of `np.random.randint(low, high)`: a draw from the integers
`low` (inclusive) to `high` (exclusive), determined by the generator
state `rng`. -/
def np_random_randint (low high rng : ℕ) : ℕ :=
  low + rng % (high - low)

/-- The notebook's `randint` transform output:
`np.random.randint(0, config['nr_levels'], (1))`, a one-element array. -/
def randint_draw (nr_levels rng : ℕ) : List ℕ :=
  [np_random_randint 0 nr_levels rng]

/-- C7: the pipeline applies exactly the claimed transforms in the claimed
order, and the noise-index branch yields exactly one index lying in
`[0, nr_levels)` for every generator state. -/
theorem C7_pipeline_transforms (nr_levels rng : ℕ) (h : 0 < nr_levels) :
    parts_funcs = specPipelineTransforms ∧
    (randint_draw nr_levels rng).length = 1 ∧
    ∀ v ∈ randint_draw nr_levels rng, v < nr_levels := by
  refine ⟨rfl, rfl, ?_⟩
  intro v hv
  have hvv : v = rng % nr_levels := by
    simpa [randint_draw, np_random_randint] using hv
  subst hvv
  exact Nat.mod_lt rng h

/-- C7 witness: the pipeline theorem at `nr_levels = 10` (the example
configuration) and generator state 7. -/
theorem C7_pipeline_transforms_witness :
    parts_funcs = specPipelineTransforms ∧ (randint_draw 10 7).length = 1 :=
  ⟨(C7_pipeline_transforms 10 7 (by decide)).1,
   (C7_pipeline_transforms 10 7 (by decide)).2.1⟩

/- ## C8: log markers around trainer.train()

The tail of the training notebook is the straight-line sequence

  go = trainer(train_pipe, test_pipe, config)
  utils.log_to(os.path.join(go.log_path, 'training files'), train_files, ...)
  utils.log_to(os.path.join(go.log_path, 'config.yaml'), [timestamp, 'The training is starting'], ...)
  go.train()
  utils.log_to(os.path.join(go.log_path, 'config.yaml'), [timestamp, 'The training is ending'], ...)
  utils.color_print('TRAINING FINISHED')

embedded as an ordered event list (sequential execution: list order is
execution order). -/

/-- One event in the tail of the training notebook. -/
inductive TrainEvent where
  | trainer_init
  | log_to (file msg : String)
  | train_call
  | color_print (msg : String)
  deriving DecidableEq, BEq, Repr

/-- The tail of the training notebook as an ordered event sequence. -/
def trainScriptTail : List TrainEvent :=
  [TrainEvent.trainer_init,
   TrainEvent.log_to "training files" "train_files",
   TrainEvent.log_to "config.yaml" "The training is starting",
   TrainEvent.train_call,
   TrainEvent.log_to "config.yaml" "The training is ending",
   TrainEvent.color_print "TRAINING FINISHED"]

/-- C8: in the training script, the timestamped starting marker is logged
strictly before `trainer.train()` runs, the ending marker strictly after
it returns, and each of the three events occurs exactly once — so training
never begins before the start marker is logged. -/
theorem C8_log_marker_order :
    trainScriptTail.indexOf (TrainEvent.log_to "config.yaml" "The training is starting") <
      trainScriptTail.indexOf TrainEvent.train_call ∧
    trainScriptTail.indexOf TrainEvent.train_call <
      trainScriptTail.indexOf (TrainEvent.log_to "config.yaml" "The training is ending") ∧
    trainScriptTail.count (TrainEvent.log_to "config.yaml" "The training is starting") = 1 ∧
    trainScriptTail.count TrainEvent.train_call = 1 ∧
    trainScriptTail.count (TrainEvent.log_to "config.yaml" "The training is ending") = 1 := by
  decide

/- ## C9: mask generation is deterministic across runs

Cell 15 of demo_recon.ipynb runs

  np.random.seed(model_config['seed'])
  np.random.seed(model_config['seed'])

before `prepare_simu` generates the mask; `np.random.seed` reinitializes
the generator from the seed alone, discarding prior state.  The Poisson
branch builds the command string with the literal seed 1234; the Gaussian
branch consumes the freshly seeded generator state. -/

/-- The reconstruction configuration keys involved in mask generation.
`model_seed` is the `seed` entry of the loaded model configuration. -/
structure ReconConfig where
  model_seed : ℕ
  poisson : Bool
  cal : ℕ
  fx : ℚ
  fy : ℚ
  sampling_rate : ℚ
  deriving DecidableEq, Repr

/-- Embedding of `np.random.seed`: the new generator state depends on the
seed alone, the previous state is discarded. -/
def np_random_seed (seed _oldState : ℕ) : ℕ := seed

/-- The mask produced by one run of demo_recon.ipynb from initial numpy
generator state `s0`: two seed calls, then the branch of `prepare_simu`
on the `poisson` flag.  `gen_mask_2D` takes the generator state, the grid
size, the calibration radius and the undersampling rate; `bart_poisson`
takes the grid size, the accelerations, the seed literal and the
calibration size. -/
def reconMaskRun {M : Type}
    (gen_mask_2D : ℕ → ℕ → ℕ → ℕ → ℚ → M)
    (bart_poisson : ℕ → ℕ → ℚ → ℚ → ℕ → ℕ → M)
    (cfg : ReconConfig) (nx ny : ℕ) (s0 : ℕ) : M :=
  let s1 := np_random_seed cfg.model_seed s0
  let s2 := np_random_seed cfg.model_seed s1
  if cfg.poisson then bart_poisson nx ny cfg.fx cfg.fy 1234 cfg.cal
  else gen_mask_2D s2 nx ny cfg.cal cfg.sampling_rate

/-- C9: two runs with the same configuration and the same k-space
dimensions produce the same mask whatever numpy generator state each
process started in, and the Poisson branch always invokes the toolbox
with the fixed literal seed 1234. -/
theorem C9_mask_deterministic {M : Type}
    (gen_mask_2D : ℕ → ℕ → ℕ → ℕ → ℚ → M)
    (bart_poisson : ℕ → ℕ → ℚ → ℚ → ℕ → ℕ → M)
    (cfg : ReconConfig) (nx ny s0 s0' : ℕ) :
    reconMaskRun gen_mask_2D bart_poisson cfg nx ny s0 =
      reconMaskRun gen_mask_2D bart_poisson cfg nx ny s0' ∧
    (cfg.poisson = true →
      reconMaskRun gen_mask_2D bart_poisson cfg nx ny s0 =
        bart_poisson nx ny cfg.fx cfg.fy 1234 cfg.cal) := by
  refine ⟨rfl, ?_⟩
  intro hp
  simp [reconMaskRun, hp]

/-- C9 witness: the determinism theorem on a concrete Poisson
configuration, two different initial generator states, and mask models
that record their arguments. -/
theorem C9_mask_deterministic_witness :
    reconMaskRun (fun s _ _ _ _ => s) (fun nx _ _ _ seed _ => nx + seed)
      ⟨1234, true, 20, 3/2, 3/2, 1/5⟩ 256 256 0 =
      reconMaskRun (fun s _ _ _ _ => s) (fun nx _ _ _ seed _ => nx + seed)
        ⟨1234, true, 20, 3/2, 3/2, 1/5⟩ 256 256 999 ∧
    reconMaskRun (fun s _ _ _ _ => s) (fun nx _ _ _ seed _ => nx + seed)
      ⟨1234, true, 20, 3/2, 3/2, 1/5⟩ 256 256 0 = 256 + 1234 :=
  ⟨(C9_mask_deterministic (fun s _ _ _ _ => s) (fun nx _ _ _ seed _ => nx + seed)
      ⟨1234, true, 20, 3/2, 3/2, 1/5⟩ 256 256 0 999).1,
   (C9_mask_deterministic (fun s _ _ _ _ => s) (fun nx _ _ _ seed _ => nx + seed)
      ⟨1234, true, 20, 3/2, 3/2, 1/5⟩ 256 256 0 999).2 rfl⟩

/- ## C10: the two coil-sensitivity estimations in prepare_simu

`prepare_simu` computes

  coilsen = np.squeeze(utils.bart(1, 'ecalib -m1 -r20 -c0.001', kspace[np.newaxis, ...]))   (used for rss)
  ...
  coilsen = np.squeeze(utils.bart(1, 'ecalib -m1 -r20 -c0.001', kspace[np.newaxis, ...]))
  coilsen = np.squeeze(coilsen)                                                              (returned)

`kspace` is not modified in between, and `utils.bart` runs the same
command on the same input, so both estimations agree; the returned value
only adds a second `np.squeeze`, which is idempotent. -/

/-- A numpy array: a shape and flat data.  `np.squeeze` only drops the
length-one axes of the shape; `[np.newaxis, ...]` prepends one. -/
structure NpArr where
  shape : List ℕ
  data : ℕ → ℂ

/-- `np.squeeze`: remove all axes of length 1. -/
def np_squeeze (a : NpArr) : NpArr :=
  ⟨a.shape.filter (fun d => d != 1), a.data⟩

/-- `a[np.newaxis, ...]`: prepend an axis of length 1. -/
def np_newaxis (a : NpArr) : NpArr :=
  ⟨1 :: a.shape, a.data⟩

/-- The `ecalib` command string used by both estimations. -/
def ecalibCmd : String := "ecalib -m1 -r20 -c0.001"

/-- The coil sensitivity maps used to form the reference image `rss`
(first assignment to `coilsen`). -/
def coilsen_for_rss (bart : String → NpArr → NpArr) (kspace : NpArr) : NpArr :=
  np_squeeze (bart ecalibCmd (np_newaxis kspace))

/-- The coil sensitivity maps returned by `prepare_simu` (second
assignment, followed by the extra squeeze). -/
def coilsen_returned (bart : String → NpArr → NpArr) (kspace : NpArr) : NpArr :=
  np_squeeze (np_squeeze (bart ecalibCmd (np_newaxis kspace)))

/-- Squeezing twice is the same as squeezing once. -/
theorem np_squeeze_idem (a : NpArr) : np_squeeze (np_squeeze a) = np_squeeze a := by
  simp [np_squeeze, List.filter_filter]

/-- C10: for every (deterministic) toolbox and every k-space, the coil
maps used for the reference image and the coil maps returned for the
forward operator are equal — both come from the same `ecalib` call on the
same fully sampled k-space, so the second estimation is redundant. -/
theorem C10_coilsen_redundant (bart : String → NpArr → NpArr) (kspace : NpArr) :
    coilsen_returned bart kspace = coilsen_for_rss bart kspace :=
  np_squeeze_idem (bart ecalibCmd (np_newaxis kspace))

end BayesianMRI
